import Mathlib

/-!
Verification development for the Storybook Reader mobile client
(`src/mobile/App.tsx`, `src/mobile/src/components/AudioPlayer.tsx`, and the
axios `ApiService` / image utilities packed into `src/README.md`).

The orchestration core of `App.tsx` is a single React component whose state
lives in `useState` hooks and two `useRef` cells (`soundRef`, `ttsRequestId`).
We embed that state as the structure `AppState` below, and each handler of the
component as a function `AppState → AppState`.  Asynchronous handlers are cut
at their `await` suspension points into atomic segments; the segments become
events of a step machine (`Event` / `step`), so that interleavings of the
single-threaded JavaScript event loop are modelled as event sequences.

Ghost fields (`pendingLoads`, `aliveSounds`, `nextSoundHandle`, `alerts`)
record, respectively: synthesis completions that passed the epoch check at
`App.tsx:143` and whose `loadAudioFromBase64` continuation is still suspended;
the set of `expo-av` `Audio.Sound` handles that have been created and not yet
unloaded; a fresh-handle counter; and the `Alert.alert` calls issued.
-/

namespace StorybookReader

/-- The `Screen` union type, `App.tsx:20`. -/
inductive Screen
  | home
  | camera
  | player
deriving DecidableEq, Repr

/-- The `serverStatus` union type, `App.tsx:24`. -/
inductive ServerStatus
  | checking
  | connected
  | error
deriving DecidableEq, Repr

/-- Outcome of the `fetch` in `checkServer` (`App.tsx:78-90`): `response.ok`,
a non-2xx response, or a rejected fetch (network absent). -/
inductive HealthOutcome
  | ok
  | httpNotOk
  | networkFailure
deriving DecidableEq, Repr

/-- The component state of `App.tsx:23-39` plus ghost bookkeeping.
`sound` mirrors the `useState` value, `soundRef` the `useRef` cell; audio
handles are identified by the `Nat` drawn from `nextSoundHandle` when
`Audio.Sound.createAsync` resolves. -/
structure AppState where
  screen : Screen
  serverStatus : ServerStatus
  /-- whether `cameraRef.current` is non-null (the camera view is mounted). -/
  cameraRefAttached : Bool
  isProcessing : Bool
  loadingText : String
  extractedText : String
  detectedLanguage : String
  sound : Option Nat
  soundRef : Option Nat
  isPlaying : Bool
  audioReady : Bool
  isGeneratingAudio : Bool
  ttsError : Option String
  /-- the `ttsRequestId` ref (`App.tsx:39`): the request epoch. -/
  ttsRequestId : Nat
  /-- ghost: epochs whose success handler passed the check at `App.tsx:143`
  and whose `loadAudioFromBase64` continuation has not yet resumed. -/
  pendingLoads : List Nat
  /-- ghost: handles created by `Audio.Sound.createAsync` and not yet unloaded. -/
  aliveSounds : List Nat
  /-- ghost: source of fresh handle identifiers. -/
  nextSoundHandle : Nat
  /-- ghost: `(title, message)` pairs passed to `Alert.alert`. -/
  alerts : List (String × String)
deriving DecidableEq, Repr

/-- `cleanupSound` (`App.tsx:41-63`).  When `invalidateRequests` is true the
epoch is incremented and the generation flags reset; then, if a sound is held,
it is stopped and unloaded (both calls wrapped in `try/catch`, so the function
never throws — hence a total function here) and the ref, state and playing
flag are cleared.  `stopAsync` does not affect the set of loaded handles;
`unloadAsync` removes the handle from it. -/
def cleanupSound (invalidateRequests : Bool) (s : AppState) : AppState :=
  let s :=
    if invalidateRequests then
      { s with ttsRequestId := s.ttsRequestId + 1,
               isGeneratingAudio := false,
               audioReady := false,
               ttsError := none }
    else s
  match s.soundRef with
  | none => s
  | some currentSound =>
      { s with aliveSounds := s.aliveSounds.erase currentSound,
               soundRef := none,
               sound := none,
               isPlaying := false }

/-- `checkServer` up to its first suspension (`App.tsx:79`). -/
def checkServer (s : AppState) : AppState :=
  { s with serverStatus := .checking }

/-- Resumption of `checkServer` when the health fetch settles
(`App.tsx:80-89`): `response.ok` sets `connected`, a non-ok response sets
`error`, and the `catch` for a rejected fetch also sets `error` — the
failure never escapes `checkServer`. -/
def checkServerDone (outcome : HealthOutcome) (s : AppState) : AppState :=
  match outcome with
  | .ok => { s with serverStatus := .connected }
  | .httpNotOk => { s with serverStatus := .error }
  | .networkFailure => { s with serverStatus := .error }

/-- The synchronous body of `generateAudio` before its first `await`
(`App.tsx:119-126`): increments the epoch (capturing the new value as the
request id of the dispatched `/api/tts` fetch) and sets the generation
flags. -/
def generateAudio (s : AppState) : AppState :=
  { s with ttsRequestId := s.ttsRequestId + 1,
           isGeneratingAudio := true,
           audioReady := false,
           ttsError := none }

/-- Resumption of `generateAudio` when the `/api/tts` fetch succeeds
(`App.tsx:142-146`): the epoch check at line 143 discards a stale response
with no state change at all; on a match, `cleanupSound(false)` runs and the
handler suspends inside `loadAudioFromBase64` (recorded in `pendingLoads`). -/
def ttsSuccessArrives (requestId : Nat) (s : AppState) : AppState :=
  if requestId = s.ttsRequestId then
    let s := cleanupSound false s
    { s with pendingLoads := requestId :: s.pendingLoads }
  else s

/-- Resumption of a pending `loadAudioFromBase64` when
`Audio.Sound.createAsync` resolves (`App.tsx:110-117`, then
`App.tsx:147,152-155`): a fresh handle is created and stored in both the ref
and the state, `setAudioReady(true)` runs unconditionally, and the `finally`
block clears `isGeneratingAudio` only when the epoch still matches. -/
def ttsLoadFinishes (requestId : Nat) (s : AppState) : AppState :=
  if requestId ∈ s.pendingLoads then
    let h := s.nextSoundHandle
    let s := { s with aliveSounds := h :: s.aliveSounds,
                      nextSoundHandle := h + 1,
                      soundRef := some h,
                      sound := some h,
                      audioReady := true,
                      pendingLoads := s.pendingLoads.erase requestId }
    if s.ttsRequestId = requestId then { s with isGeneratingAudio := false }
    else s
  else s

/-- Resumption of `generateAudio` when the `/api/tts` call fails (non-ok
response or rejected fetch, `App.tsx:137-140,148-156`): the `catch` block
re-checks the epoch and discards silently on mismatch; on a match it records
the error message, clears `audioReady`, and the `finally` block (epoch still
matching, no suspension in between) clears `isGeneratingAudio`. -/
def ttsFailureArrives (requestId : Nat) (msg : String) (s : AppState) : AppState :=
  if requestId = s.ttsRequestId then
    { s with ttsError := some msg,
             audioReady := false,
             isGeneratingAudio := false }
  else s

/-- JavaScript `String.prototype.trim`, as applied at `App.tsx:197`: drops
whitespace from both ends of the string.  (Defined over the character list so
that it evaluates inside the kernel.) -/
def jsTrim (s : String) : String :=
  String.mk (((s.data.dropWhile Char.isWhitespace).reverse.dropWhile
    Char.isWhitespace).reverse)

/-- `handleCapture` up to its first network suspension (`App.tsx:159-166`):
the re-entrancy guard, `setIsProcessing(true)`, the loading caption, and
`cleanupSound()` with its default `invalidateRequests = true`.  (The
intermediate caption updates at lines 170 and 181 are collapsed; the caption
is reset by every exit segment below.) -/
def handleCapture (s : AppState) : AppState :=
  if !s.cameraRefAttached || s.isProcessing then s
  else
    cleanupSound true
      { s with isProcessing := true, loadingText := "Capturing..." }

/-- Resumption of `handleCapture` when the `/api/ocr` response parses
(`App.tsx:196-211`): blank text (`!result.text || !result.text.trim()`)
throws, which the `catch` turns into an alert and the `finally` resets the
progress flags; otherwise the extracted text, the detected language
(`result.detected_language || 'auto'`) and the `player` screen are set
synchronously, `generateAudio` is invoked (running its synchronous body), and
the `finally` resets the progress flags. -/
def handleOcrResult (text lang : String) (s : AppState) : AppState :=
  if text == "" || jsTrim text == "" then
    { s with alerts := s.alerts ++ [("Error", "No text found in the image")],
             isProcessing := false,
             loadingText := "" }
  else
    let language := if lang == "" then "auto" else lang
    let s := { s with extractedText := text,
                      detectedLanguage := language,
                      screen := .player }
    let s := generateAudio s
    { s with isProcessing := false, loadingText := "" }

/-- Resumption of `handleCapture` when the capture, image manipulation, file
read or OCR call fails (`App.tsx:206-211`): alert, then the `finally`
block. -/
def handleCaptureFailure (msg : String) (s : AppState) : AppState :=
  { s with alerts := s.alerts ++ [("Error", msg)],
           isProcessing := false,
           loadingText := "" }

/-- `playPause` (`App.tsx:214-223`): no-op without a ready sound, else
toggles. -/
def playPause (s : AppState) : AppState :=
  match s.sound with
  | none => s
  | some _ =>
      if !s.audioReady then s
      else if s.isPlaying then { s with isPlaying := false }
      else { s with isPlaying := true }

/-- `goHome` (`App.tsx:225-230`). -/
def goHome (s : AppState) : AppState :=
  let s := cleanupSound true s
  { s with extractedText := "", detectedLanguage := "auto", screen := .home }

/-- The "Take Another Photo" button handler (`App.tsx:369-377`). -/
def takeAnotherPhoto (s : AppState) : AppState :=
  let s := cleanupSound true s
  { s with screen := .camera }

/-- Whether the "Retry Audio" control is rendered (`App.tsx:360-367`): the
JSX guard `{ttsError && ...}` shows it exactly when `ttsError` is a truthy
(non-empty) string. -/
def retryControlShown (s : AppState) : Bool :=
  match s.ttsError with
  | none => false
  | some m => m != ""

/-- Pressing the "Retry Audio" control (`App.tsx:363`): only possible while
it is rendered; re-invokes `generateAudio` (synchronous body). -/
def retryAudio (s : AppState) : AppState :=
  if retryControlShown s then generateAudio s else s

/-- The home-screen "Take Photo" handler (`App.tsx:244-254`): while the
server is not connected it alerts and returns without navigating; without
camera permission it requests permission and returns; else it navigates to
the camera screen. -/
def homeTakePhoto (permissionGranted : Bool) (s : AppState) : AppState :=
  if s.serverStatus ≠ .connected then
    { s with alerts :=
        s.alerts ++ [("Server not connected", "Please wait or check connection")] }
  else if !permissionGranted then s
  else { s with screen := .camera }

/-- Atomic events of the orchestration machine: each is one `await`-delimited
segment of a handler of `App.tsx`, or one synchronous UI handler. -/
inductive Event
  | healthStart
  | healthDone (outcome : HealthOutcome)
  | takePhotoTap (permissionGranted : Bool)
  | captureTap
  | ocrDone (text lang : String)
  | captureError (msg : String)
  | ttsOk (requestId : Nat)
  | ttsLoaded (requestId : Nat)
  | ttsErr (requestId : Nat) (msg : String)
  | retryTap
  | playPauseTap
  | nextPhotoTap
  | homeTap
deriving DecidableEq, Repr

/-- One step of the orchestration machine. -/
def step (s : AppState) : Event → AppState
  | .healthStart => checkServer s
  | .healthDone outcome => checkServerDone outcome s
  | .takePhotoTap p => homeTakePhoto p s
  | .captureTap => handleCapture s
  | .ocrDone text lang => handleOcrResult text lang s
  | .captureError msg => handleCaptureFailure msg s
  | .ttsOk requestId => ttsSuccessArrives requestId s
  | .ttsLoaded requestId => ttsLoadFinishes requestId s
  | .ttsErr requestId msg => ttsFailureArrives requestId msg s
  | .retryTap => retryAudio s
  | .playPauseTap => playPause s
  | .nextPhotoTap => takeAnotherPhoto s
  | .homeTap => goHome s

/-- The component's initial state (`App.tsx:23-39`).  `cameraRefAttached` is
taken as true: the ref is attached whenever the camera screen is mounted, and
it is read only by `handleCapture`, reachable only from that screen. -/
def initState : AppState where
  screen := .home
  serverStatus := .checking
  cameraRefAttached := true
  isProcessing := false
  loadingText := ""
  extractedText := ""
  detectedLanguage := "auto"
  sound := none
  soundRef := none
  isPlaying := false
  audioReady := false
  isGeneratingAudio := false
  ttsError := none
  ttsRequestId := 0
  pendingLoads := []
  aliveSounds := []
  nextSoundHandle := 0
  alerts := []

/-- Serialized variant of `step`, used only to state the amended form of the
single-audio-resource invariant: a successful synthesis completion that
passes the epoch check runs to the end of its load continuation with no
other event interleaved (the composition of the two source segments
`ttsSuccessArrives` and `ttsLoadFinishes`). -/
def stepSerial (s : AppState) : Event → AppState
  | .ttsOk requestId => ttsLoadFinishes requestId (ttsSuccessArrives requestId s)
  | .ttsLoaded _ => s
  | e => step s e

/-- A typical state on the player screen with no audio loaded and synthesis
request 5 in flight: reached after a capture whose extraction succeeded. -/
def samplePlayerState : AppState :=
  { initState with
      screen := .player,
      serverStatus := .connected,
      extractedText := "Once upon a time",
      detectedLanguage := "en",
      isGeneratingAudio := true,
      ttsRequestId := 5 }

/-- A player-screen state in which synthesis succeeded: audio handle 0 is
loaded and playing. -/
def audioLoadedState : AppState :=
  { samplePlayerState with
      sound := some 0, soundRef := some 0, isPlaying := true,
      audioReady := true, isGeneratingAudio := false,
      aliveSounds := [0], nextSoundHandle := 1 }

/-- A state in which a capture pipeline is in flight. -/
def busyCameraState : AppState :=
  { initState with
      screen := .camera,
      serverStatus := .connected,
      isProcessing := true,
      loadingText := "Capturing...",
      ttsRequestId := 1 }

/-- A quiescent camera-screen state, as reached from the home screen or via
"Take Another Photo" (both paths leave the audio state torn down). -/
def idleCameraState : AppState :=
  { initState with
      screen := .camera,
      serverStatus := .connected,
      extractedText := "Previous page",
      detectedLanguage := "en",
      ttsRequestId := 3 }

/-!  ## The `AudioPlayer` component (`src/mobile/src/components/AudioPlayer.tsx`)

Its state hooks (`AudioPlayer.tsx:23-27`) are embedded as `PlayerComp`;
commands sent to the underlying `expo-av` handle are recorded in `issued`.
`position` is in seconds, and is written only by `onPlaybackStatusUpdate`
(`AudioPlayer.tsx:78-89`), never by the control handlers. -/

/-- A call made on the `expo-av` sound handle. -/
inductive AvCommand
  | setPositionMillis (target : ℚ)
  | setRateMultiplier (rate : ℚ)
  | play
  | pause
deriving DecidableEq

/-- State of the `AudioPlayer` component. -/
structure PlayerComp where
  sound : Option Nat
  isPlaying : Bool
  position : ℚ
  playbackSpeed : ℚ
  issued : List AvCommand
deriving DecidableEq

/-- `seekTo` (`AudioPlayer.tsx:101-104`): no-op without a sound; otherwise
forwards `seconds * 1000` to `sound.setPositionAsync` unchanged.  It performs
no clamping and does not write the `position` state. -/
def seekTo (seconds : ℚ) (p : PlayerComp) : PlayerComp :=
  match p.sound with
  | none => p
  | some _ =>
      { p with issued := p.issued ++ [.setPositionMillis (seconds * 1000)] }

/-- `onPlaybackStatusUpdate` (`AudioPlayer.tsx:78-89`) for a loaded status:
the only writer of `position`. -/
def onPlaybackStatusUpdate (positionMillis : ℚ) (playing didJustFinish : Bool)
    (p : PlayerComp) : PlayerComp :=
  let p := { p with position := positionMillis / 1000, isPlaying := playing }
  if didJustFinish then { p with isPlaying := false, position := 0 } else p

/-- A player state with a loaded sound, mid-playback. -/
def loadedPlayer : PlayerComp :=
  { sound := some 0, isPlaying := true, position := 2, playbackSpeed := 1,
    issued := [] }

/-!  ## Remote request timeouts

The axios client (`ApiService` constructor, packed into `src/README.md`)
configures a single `timeout: 120000` on `axios.create`, which therefore
applies to every request the client issues — the health check included.  The
`fetch` calls in `App.tsx` (`checkServer`, `/api/ocr`, `/api/tts`) set no
timeout and use no `AbortController` at all. -/

/-- The remote operations. -/
inductive RemoteOp
  | health
  | ocr
  | tts
  | read
deriving DecidableEq

/-- The `timeout` value passed to `axios.create` in the `ApiService`
constructor: two minutes, "for TTS processing". -/
def apiServiceTimeoutMs : Nat := 120000

/-- The request timeout the axios client applies, per operation: the single
`axios.create` configuration, hence the same bound for all four. -/
def requestTimeoutMs : RemoteOp → Nat :=
  fun _ => apiServiceTimeoutMs

/-- The explicit timeout carried by the direct `fetch` calls in `App.tsx`:
none of them sets one. -/
def appFetchTimeoutMs : RemoteOp → Option Nat :=
  fun _ => none

/-!  ## Synchronous operation trace of the extraction-success path

For the ordering claim about `handleCapture`'s success path
(`App.tsx:196-205` followed by the synchronous body of `generateAudio`,
`App.tsx:119-126`), the straight-line code is transcribed as a list of
primitive operations in source order.  `awaitTtsFetch` is the dispatch of the
`/api/tts` request at the first `await` of `generateAudio` — the first
suspension point after extraction succeeds. -/

/-- Primitive operations of the extraction-success path, in source order. -/
inductive CaptureOp
  | setExtractedText (text : String)
  | setDetectedLanguage (lang : String)
  | setScreen (sc : Screen)
  | bumpTtsRequestId
  | setIsGeneratingAudio (b : Bool)
  | setAudioReady (b : Bool)
  | setTtsError (e : Option String)
  | awaitTtsFetch
deriving DecidableEq

/-- The synchronous body of `generateAudio` (`App.tsx:119-126`) as an
operation list, ending at its first suspension: the dispatch of the
`/api/tts` fetch. -/
def generateAudioSyncOps : List CaptureOp :=
  [.bumpTtsRequestId, .setIsGeneratingAudio true, .setAudioReady false,
   .setTtsError none, .awaitTtsFetch]

/-- The operations executed by `handleCapture` after a non-blank OCR result
(`App.tsx:201-205`), in source order: display the text, record the language,
switch to the player screen, then invoke `generateAudio`. -/
def captureSuccessOps (text lang : String) : List CaptureOp :=
  [.setExtractedText text,
   .setDetectedLanguage (if lang == "" then "auto" else lang),
   .setScreen .player] ++ generateAudioSyncOps

/-- Whether an operation is a suspension point (yields the single JavaScript
thread). -/
def opSuspends : CaptureOp → Bool
  | .awaitTtsFetch => true
  | _ => false

/-- Whether an operation displays the extracted text. -/
def opShowsText : CaptureOp → Bool
  | .setExtractedText _ => true
  | _ => false

/-- Whether an operation performs the screen transition. -/
def opSetsScreen : CaptureOp → Bool
  | .setScreen _ => true
  | _ => false

/-- Whether an operation mutates synthesis-related state
(`isGeneratingAudio`, `audioReady`, `ttsError`, the epoch). -/
def opTouchesSynthesisState : CaptureOp → Bool
  | .bumpTtsRequestId => true
  | .setIsGeneratingAudio _ => true
  | .setAudioReady _ => true
  | .setTtsError _ => true
  | _ => false

/-- Whether an operation dispatches the synthesis request. -/
def opDispatchesSynthesis : CaptureOp → Bool
  | .awaitTtsFetch => true
  | _ => false

/-- An execution of the fine-grained machine exhibiting the stale-load race:
page one's synthesis response (epoch 2) passes the epoch check and suspends
inside `loadAudioFromBase64`; the user takes another photo (its synthesis is
epoch 5) and the second response loads handle 0; only then does the first,
superseded load continuation resume and create handle 1.  Each event is a
contiguous execution segment of `App.tsx`, so the interleaving is a schedule
the JavaScript event loop can produce. -/
def c4RaceTrace : List Event :=
  [.healthDone .ok, .takePhotoTap true, .captureTap,
   .ocrDone "a" "en", .ttsOk 2, .nextPhotoTap,
   .captureTap, .ocrDone "b" "en", .ttsOk 5,
   .ttsLoaded 5, .ttsLoaded 2]

/-- Audio-resource coupling: no load continuation is pending, and the set of
live handles is empty or exactly the one referenced by `soundRef`. -/
def soundResourceInvariant (s : AppState) : Prop :=
  s.pendingLoads = [] ∧
  ((s.soundRef = none ∧ s.aliveSounds = []) ∨
    ∃ h, s.soundRef = some h ∧ s.aliveSounds = [h])

/-!  ## Theorems -/

/-- Claim C1: a synthesis completion (success or failure) whose carried epoch
differs from the live `ttsRequestId` at completion time — the moment the
response arrives and the check at `App.tsx:143` (resp. the `catch` check at
line 149) runs — mutates no state at all: the whole `AppState`, in
particular `sound`, `audioReady`, `ttsError`, `isGeneratingAudio`,
`isPlaying`, `extractedText` and `screen`, is unchanged.  The state `s` is
universally quantified, so this covers every reachable state, hence any
number of rapid "capture next page" actions and any arrival order of the
superseded responses; the trace-level conjunct makes that explicit: deleting
a stale completion from anywhere in an event sequence leaves the final state
unchanged. -/
theorem stale_synthesis_completion_discarded (s : AppState) (requestId : Nat)
    (msg : String) (h : requestId ≠ s.ttsRequestId) :
    ttsSuccessArrives requestId s = s ∧
    ttsFailureArrives requestId msg s = s ∧
    ∀ (pre post : List Event) (r : Nat) (m : String),
      r ≠ (pre.foldl step initState).ttsRequestId →
      ((pre ++ Event.ttsOk r :: post).foldl step initState
          = (pre ++ post).foldl step initState ∧
       (pre ++ Event.ttsErr r m :: post).foldl step initState
          = (pre ++ post).foldl step initState) := by
  refine ⟨by simp [ttsSuccessArrives, h], by simp [ttsFailureArrives, h], ?_⟩
  intro pre post r m hr
  constructor <;>
    · rw [List.foldl_append, List.foldl_append, List.foldl_cons]
      simp [step, ttsSuccessArrives, ttsFailureArrives, hr]

/-- Witness for C1: a stale completion (epoch 3 against live epoch 5) leaves
a concrete player state untouched. -/
theorem stale_synthesis_completion_discarded_witness :
    ttsSuccessArrives 3 samplePlayerState = samplePlayerState ∧
    ttsFailureArrives 3 "timeout" samplePlayerState = samplePlayerState :=
  ⟨(stale_synthesis_completion_discarded samplePlayerState 3 "timeout"
      (by decide)).1,
   (stale_synthesis_completion_discarded samplePlayerState 3 "timeout"
      (by decide)).2.1⟩

/-- Claim C2: in the extraction-success path of `handleCapture`
(`App.tsx:196-205` followed by the synchronous body of `generateAudio`,
`App.tsx:119-126`), the text display and the transition to the player screen
lie in the prefix strictly before the first synthesis-related state change
or dispatch; that prefix contains no suspension point; the only suspension
point of the whole path is the dispatch of the `/api/tts` fetch itself, and
it is the final operation. -/
theorem text_displayed_before_synthesis (text lang : String) :
    CaptureOp.setExtractedText text
      ∈ (captureSuccessOps text lang).takeWhile
          (fun o => !(opTouchesSynthesisState o || opDispatchesSynthesis o)) ∧
    CaptureOp.setScreen .player
      ∈ (captureSuccessOps text lang).takeWhile
          (fun o => !(opTouchesSynthesisState o || opDispatchesSynthesis o)) ∧
    (∀ op ∈ (captureSuccessOps text lang).takeWhile
          (fun o => !(opTouchesSynthesisState o || opDispatchesSynthesis o)),
        opSuspends op = false) ∧
    (captureSuccessOps text lang).filter opSuspends = [CaptureOp.awaitTtsFetch] ∧
    (captureSuccessOps text lang).getLast? = some CaptureOp.awaitTtsFetch := by
  refine ⟨?_, ?_, ?_, ?_, ?_⟩
  · simp [captureSuccessOps, generateAudioSyncOps, List.takeWhile,
      opTouchesSynthesisState, opDispatchesSynthesis]
  · simp [captureSuccessOps, generateAudioSyncOps, List.takeWhile,
      opTouchesSynthesisState, opDispatchesSynthesis]
  · simp only [captureSuccessOps, generateAudioSyncOps, List.takeWhile,
      opTouchesSynthesisState, opDispatchesSynthesis]
    rintro op hop
    simp at hop
    rcases hop with rfl | rfl | rfl <;> rfl
  · simp [captureSuccessOps, generateAudioSyncOps, List.filter, opSuspends]
  · simp [captureSuccessOps, generateAudioSyncOps]

/-- Witness for C2 at a concrete extraction result. -/
theorem text_displayed_before_synthesis_witness :
    CaptureOp.setScreen .player
      ∈ (captureSuccessOps "Once upon a time" "en").takeWhile
          (fun o => !(opTouchesSynthesisState o || opDispatchesSynthesis o)) ∧
    opSuspends (CaptureOp.setScreen Screen.player) = false ∧
    (captureSuccessOps "Once upon a time" "en").filter opSuspends
      = [CaptureOp.awaitTtsFetch] := by
  have h := text_displayed_before_synthesis "Once upon a time" "en"
  exact ⟨h.2.1, h.2.2.1 (CaptureOp.setScreen Screen.player) h.2.1, h.2.2.2.1⟩

/-- Claim C3: a synthesis failure whose epoch matches the live epoch leaves
the displayed text, the screen, the detected language and the playback state
untouched; it records the error message, clears `audioReady` (and the
in-progress flag via the `finally` block), the retry control becomes
rendered, and pressing it re-issues synthesis under the freshly incremented
epoch. -/
theorem synthesis_failure_preserves_text (s : AppState) (requestId : Nat)
    (msg : String) (hmatch : requestId = s.ttsRequestId) (hmsg : msg ≠ "") :
    (ttsFailureArrives requestId msg s).extractedText = s.extractedText ∧
    (ttsFailureArrives requestId msg s).screen = s.screen ∧
    (ttsFailureArrives requestId msg s).detectedLanguage = s.detectedLanguage ∧
    (ttsFailureArrives requestId msg s).sound = s.sound ∧
    (ttsFailureArrives requestId msg s).soundRef = s.soundRef ∧
    (ttsFailureArrives requestId msg s).isPlaying = s.isPlaying ∧
    (ttsFailureArrives requestId msg s).ttsError = some msg ∧
    (ttsFailureArrives requestId msg s).audioReady = false ∧
    (ttsFailureArrives requestId msg s).isGeneratingAudio = false ∧
    retryControlShown (ttsFailureArrives requestId msg s) = true ∧
    (retryAudio (ttsFailureArrives requestId msg s)).ttsRequestId
      = s.ttsRequestId + 1 ∧
    (retryAudio (ttsFailureArrives requestId msg s)).isGeneratingAudio = true := by
  subst hmatch
  simp [ttsFailureArrives, retryAudio, retryControlShown, generateAudio,
    bne_iff_ne, hmsg]

/-- Witness for C3: a matching timeout failure at a concrete player state. -/
theorem synthesis_failure_preserves_text_witness :
    (ttsFailureArrives 5 "timeout" samplePlayerState).extractedText
      = samplePlayerState.extractedText ∧
    (ttsFailureArrives 5 "timeout" samplePlayerState).screen
      = samplePlayerState.screen ∧
    retryControlShown (ttsFailureArrives 5 "timeout" samplePlayerState)
      = true := by
  have h := synthesis_failure_preserves_text samplePlayerState 5 "timeout" rfl
    (by decide)
  exact ⟨h.1, h.2.1, h.2.2.2.2.2.2.2.2.2.1⟩

/-- Counterexample to claim C4 as stated: a state with two simultaneously
live audio handles is reachable.  The success handler of `generateAudio`
checks the epoch only once, at `App.tsx:143`; if a new capture supersedes
the request while its `loadAudioFromBase64` continuation is still suspended,
that continuation resumes anyway, creates a second handle while the newer
one is loaded, and overwrites `soundRef` — leaking the newer handle. -/
theorem two_live_audio_handles_reachable :
    (c4RaceTrace.foldl step initState).aliveSounds = [1, 0] ∧
    1 < (c4RaceTrace.foldl step initState).aliveSounds.length ∧
    (c4RaceTrace.foldl step initState).soundRef = some 1 ∧
    (c4RaceTrace.foldl step initState).ttsRequestId = 5 := by decide

/-- Preservation of `soundResourceInvariant` by one serialized step. -/
theorem stepSerial_soundResourceInvariant (s : AppState) (e : Event)
    (h : soundResourceInvariant s) :
    soundResourceInvariant (stepSerial s e) := by
  obtain ⟨sc, ss, cam, ip, lt, et, dl, snd, sref, ply, ar, ig, te, rid, pl,
    al, nh, als⟩ := s
  obtain ⟨hp, hc⟩ := h
  dsimp only at hp hc
  cases e <;>
    simp only [stepSerial, step, checkServer, checkServerDone, homeTakePhoto,
      handleCapture, handleOcrResult, handleCaptureFailure, generateAudio,
      ttsSuccessArrives, ttsLoadFinishes, ttsFailureArrives, retryAudio,
      retryControlShown, playPause, takeAnotherPhoto, goHome,
      cleanupSound] <;>
    subst hp <;>
    rcases hc with ⟨rfl, rfl⟩ | ⟨h0, rfl, rfl⟩ <;>
    (repeat' split) <;>
    simp_all [soundResourceInvariant, List.erase_cons_head]

/-- `soundResourceInvariant` is inductive along serialized executions. -/
theorem foldl_stepSerial_soundResourceInvariant (events : List Event) :
    ∀ s : AppState, soundResourceInvariant s →
      soundResourceInvariant (events.foldl stepSerial s) := by
  induction events with
  | nil => exact fun _ hs => hs
  | cons e t ih =>
      intro s hs
      exact ih (stepSerial s e) (stepSerial_soundResourceInvariant s e hs)

/-- Claim C4, amended: in every execution in which each synthesis completion
that passes the epoch check runs to the end of its load without another
event interleaved (the `stepSerial` machine), every load is preceded by the
full teardown performed by `cleanupSound` and at most one audio handle is
alive at every point.  (As stated the claim fails: see the race of
`two_live_audio_handles_reachable`, where a superseded load continuation
creates a second live handle.) -/
theorem serialized_executions_single_audio_handle (events : List Event) :
    (events.foldl stepSerial initState).aliveSounds.length ≤ 1 := by
  have h := foldl_stepSerial_soundResourceInvariant events initState
    (by simp [soundResourceInvariant, initState])
  rcases h.2 with ⟨_, halive⟩ | ⟨_, _, halive⟩ <;> simp [halive]

/-- Claim C5: an extraction response whose text is empty or whitespace-only
aborts the attempt in place: starting from a quiescent camera-screen state
(the only states from which `handleCapture` runs — both entry paths tear the
audio state down first), running the capture segment and then the blank OCR
result leaves the screen on `camera`, the displayed text, language, audio
resource and all synthesis flags at their pre-attempt values, resets
`isProcessing`, and alerts the user.  (The internal `ttsRequestId` counter
is bumped by the capture's initial `cleanupSound`; it is bookkeeping, not
user-visible state.) -/
theorem blank_extraction_aborts_in_place (s : AppState) (text lang : String)
    (hscreen : s.screen = .camera)
    (hproc : s.isProcessing = false)
    (hsound : s.sound = none) (hsref : s.soundRef = none)
    (hplay : s.isPlaying = false) (hready : s.audioReady = false)
    (hgen : s.isGeneratingAudio = false) (herr : s.ttsError = none)
    (hblank : jsTrim text = "") :
    (handleOcrResult text lang (handleCapture s)).screen = Screen.camera ∧
    (handleOcrResult text lang (handleCapture s)).extractedText
      = s.extractedText ∧
    (handleOcrResult text lang (handleCapture s)).detectedLanguage
      = s.detectedLanguage ∧
    (handleOcrResult text lang (handleCapture s)).sound = s.sound ∧
    (handleOcrResult text lang (handleCapture s)).soundRef = s.soundRef ∧
    (handleOcrResult text lang (handleCapture s)).isPlaying = s.isPlaying ∧
    (handleOcrResult text lang (handleCapture s)).audioReady = s.audioReady ∧
    (handleOcrResult text lang (handleCapture s)).isGeneratingAudio
      = s.isGeneratingAudio ∧
    (handleOcrResult text lang (handleCapture s)).ttsError = s.ttsError ∧
    (handleOcrResult text lang (handleCapture s)).isProcessing = false ∧
    (handleOcrResult text lang (handleCapture s)).alerts
      = s.alerts ++ [("Error", "No text found in the image")] := by
  obtain ⟨sc, ss, cam, ip, lt, et, dl, snd, sref, ply, ar, ig, te, rid, pl,
    al, nh, als⟩ := s
  dsimp only at hscreen hproc hsound hsref hplay hready hgen herr
  subst hscreen hproc hsound hsref hplay hready hgen herr
  cases cam <;>
    simp [handleCapture, handleOcrResult, cleanupSound, hblank]

/-- Witness for C5: a whitespace-only page aborts a concrete capture. -/
theorem blank_extraction_aborts_in_place_witness :
    (handleOcrResult "   " "en" (handleCapture idleCameraState)).screen
      = Screen.camera ∧
    (handleOcrResult "   " "en" (handleCapture idleCameraState)).extractedText
      = idleCameraState.extractedText ∧
    (handleOcrResult "   " "en" (handleCapture idleCameraState)).alerts
      = idleCameraState.alerts
          ++ [("Error", "No text found in the image")] := by
  have h := blank_extraction_aborts_in_place idleCameraState "   " "en"
    rfl rfl rfl rfl rfl rfl rfl rfl (by decide)
  exact ⟨h.1, h.2.1, h.2.2.2.2.2.2.2.2.2.2⟩

/-- Counterexample to claim C6 as stated: `seekTo` performs no clamping and
does not update the position state.  Seeking to `-5` on a loaded player
forwards `-5000` milliseconds — below the claimed lower clamp `0` — to
`setPositionAsync`, and the `position` state remains `2` rather than
becoming `0`. -/
theorem seek_neither_clamps_nor_updates_position :
    (seekTo (-5) loadedPlayer).issued
      = [AvCommand.setPositionMillis (-5000)] ∧
    ((-5000 : ℚ) < 0) ∧
    (seekTo (-5) loadedPlayer).position = 2 ∧
    (seekTo (-5) loadedPlayer).position ≠ 0 := by
  refine ⟨?_, by norm_num, rfl, by norm_num [seekTo, loadedPlayer]⟩
  show [AvCommand.setPositionMillis ((-5) * 1000)] = _
  norm_num

/-- Claim C6, amended: `seekTo` is a no-op when no sound is loaded;
otherwise it forwards the raw, unclamped `seconds * 1000` to the underlying
handle's `setPositionAsync`, updating neither the `position` nor the
`isPlaying` state itself — position updates arrive only through the
playback-status callback.  (The slider UI restricts interactive seeks to
`[0, duration]`, but the `seekTo` function clamps nothing.) -/
theorem seek_forwards_raw_position (x : ℚ) (p : PlayerComp) :
    (p.sound = none → seekTo x p = p) ∧
    (p.sound ≠ none →
      (seekTo x p).issued
        = p.issued ++ [AvCommand.setPositionMillis (x * 1000)]) ∧
    (seekTo x p).position = p.position ∧
    (seekTo x p).isPlaying = p.isPlaying := by
  rcases hp : p.sound with _ | v <;>
    simp [seekTo, hp]

/-- Witness for C6 at a concrete loaded player. -/
theorem seek_forwards_raw_position_witness :
    (seekTo (-5) loadedPlayer).issued
      = loadedPlayer.issued ++ [AvCommand.setPositionMillis ((-5) * 1000)] ∧
    (seekTo (-5) loadedPlayer).position = loadedPlayer.position :=
  ⟨(seek_forwards_raw_position (-5) loadedPlayer).2.1 (by simp [loadedPlayer]),
   (seek_forwards_raw_position (-5) loadedPlayer).2.2.1⟩

/-- Claim C7: every health-check failure (network unreachable or non-ok
response) is absorbed by `checkServer` — it is a total function whose
failure outcomes set `serverStatus` to `error`, with no alert and nothing
thrown to the caller; while the server is not connected, pressing the
primary "Take Photo" action appends the retry alert and performs no
navigation; and the status button re-triggers `checkServer` from any state,
which re-enters `checking`. -/
theorem health_failure_sets_error_and_blocks_capture (s : AppState)
    (o : HealthOutcome) (p : Bool)
    (hfail : o ≠ .ok) (hdisc : s.serverStatus ≠ .connected) :
    (checkServerDone o s).serverStatus = .error ∧
    (checkServerDone o s).alerts = s.alerts ∧
    (homeTakePhoto p s).screen = s.screen ∧
    (homeTakePhoto p s).alerts
      = s.alerts ++ [("Server not connected", "Please wait or check connection")] ∧
    (checkServer s).serverStatus = .checking := by
  refine ⟨?_, ?_, ?_, ?_, rfl⟩
  · cases o <;> simp_all [checkServerDone]
  · cases o <;> simp_all [checkServerDone]
  · simp [homeTakePhoto, hdisc]
  · simp [homeTakePhoto, hdisc]

/-- Witness for C7: network absence at the initial state. -/
theorem health_failure_sets_error_and_blocks_capture_witness :
    (checkServerDone .networkFailure initState).serverStatus = .error ∧
    (homeTakePhoto true initState).screen = initState.screen ∧
    (homeTakePhoto true initState).alerts
      = initState.alerts
        ++ [("Server not connected", "Please wait or check connection")] := by
  have h := health_failure_sets_error_and_blocks_capture initState
    .networkFailure true (by decide) (by decide)
  exact ⟨h.1, h.2.2.1, h.2.2.2.1⟩

/-- Counterexample to claim C8 as stated: the health check does not use a
distinct, much shorter timeout — the axios client applies its single
120000 ms configuration to the health check and the synthesis call alike,
and the `fetch`-based health check in `App.tsx` carries no explicit timeout
at all. -/
theorem health_check_shares_long_timeout :
    requestTimeoutMs .health = requestTimeoutMs .tts ∧
    ¬ requestTimeoutMs .health < requestTimeoutMs .tts ∧
    requestTimeoutMs .health = 120000 ∧
    appFetchTimeoutMs .health = none := by decide

/-- Claim C8, amended: the axios `ApiService` applies one bounded timeout of
120000 ms (two minutes, sized for synthesis) to all remote operations,
the health check included — there is no separate shorter health-check
timeout; the direct `fetch` calls in `App.tsx` carry no explicit timeout. -/
theorem all_operations_share_single_timeout :
    ∀ op : RemoteOp, requestTimeoutMs op = 120000 ∧ appFetchTimeoutMs op = none :=
  fun _ => ⟨rfl, rfl⟩

/-- Counterexample to claim C9 as stated: after a first `cleanupSound()` has
torn everything down (no resource held, playback stopped), a second call
does not "return without effect" — the `invalidateRequests` block runs
before the no-resource early return and increments `ttsRequestId` again. -/
theorem cleanup_second_call_still_mutates :
    (cleanupSound true audioLoadedState).soundRef = none ∧
    (cleanupSound true audioLoadedState).sound = none ∧
    (cleanupSound true audioLoadedState).isPlaying = false ∧
    cleanupSound true (cleanupSound true audioLoadedState)
      ≠ cleanupSound true audioLoadedState ∧
    (cleanupSound true (cleanupSound true audioLoadedState)).ttsRequestId
      = (cleanupSound true audioLoadedState).ttsRequestId + 1 := by decide

/-- Claim C9, amended: `cleanupSound` is a total function (both the stop and
the unload are wrapped in swallowing `try/catch`, so repeated calls never
throw); after one call the playback state is paused with no resource held
(`soundRef`, `sound` cleared, `isPlaying` false, flags reset), and a
subsequent call finds no resource and leaves the state unchanged except
that, when `invalidateRequests` is true (its default), it increments the
request epoch again.  The hypotheses couple `sound` with `soundRef` and
`isPlaying` with resource presence, as holds in every reachable state. -/
theorem cleanup_idempotent_on_playback_state (s : AppState) (b2 : Bool)
    (hcouple : s.sound = s.soundRef)
    (hplay : s.soundRef = none → s.isPlaying = false) :
    (cleanupSound true s).soundRef = none ∧
    (cleanupSound true s).sound = none ∧
    (cleanupSound true s).isPlaying = false ∧
    (cleanupSound true s).audioReady = false ∧
    (cleanupSound true s).isGeneratingAudio = false ∧
    (cleanupSound true s).ttsError = none ∧
    (cleanupSound b2 (cleanupSound true s)).soundRef = none ∧
    (cleanupSound b2 (cleanupSound true s)).sound = none ∧
    (cleanupSound b2 (cleanupSound true s)).isPlaying = false ∧
    (b2 = false → cleanupSound b2 (cleanupSound true s) = cleanupSound true s) ∧
    (b2 = true → cleanupSound b2 (cleanupSound true s)
        = { cleanupSound true s with
              ttsRequestId := (cleanupSound true s).ttsRequestId + 1 }) := by
  obtain ⟨sc, ss, cam, ip, lt, et, dl, snd, sref, ply, ar, ig, te, rid, pl,
    al, nh, als⟩ := s
  dsimp only at hcouple hplay
  rcases sref with _ | v <;> subst hcouple <;> cases b2 <;>
    simp_all [cleanupSound]

/-- Witness for C9 at a concrete loaded state. -/
theorem cleanup_idempotent_on_playback_state_witness :
    (cleanupSound true audioLoadedState).soundRef = none ∧
    (cleanupSound true audioLoadedState).isPlaying = false ∧
    cleanupSound true (cleanupSound true audioLoadedState)
      = { cleanupSound true audioLoadedState with
            ttsRequestId :=
              (cleanupSound true audioLoadedState).ttsRequestId + 1 } := by
  have h := cleanup_idempotent_on_playback_state audioLoadedState true rfl
    (by intro hx; exact absurd hx (by decide))
  exact ⟨h.1, h.2.2.1, h.2.2.2.2.2.2.2.2.2.2 rfl⟩

/-- Claim C10: while a capture pipeline is in flight (`isProcessing` true)
the capture handler returns immediately with no side effect, so at most one
capture/extract/enqueue-synthesis sequence is in flight at a time; and every
exit segment of the handler — extraction result (blank or not) and every
failure — resets `isProcessing` to false (the `finally` block). -/
theorem capture_reentrancy_guard :
    (∀ s : AppState, s.isProcessing = true → handleCapture s = s) ∧
    (∀ (s : AppState) (text lang : String),
      (handleOcrResult text lang s).isProcessing = false) ∧
    (∀ (s : AppState) (msg : String),
      (handleCaptureFailure msg s).isProcessing = false) := by
  refine ⟨?_, ?_, ?_⟩
  · intro s h
    simp [handleCapture, h]
  · intro s t l
    unfold handleOcrResult
    split <;> rfl
  · intro s m
    rfl

/-- Witness for C10 at a concrete busy state. -/
theorem capture_reentrancy_guard_witness :
    handleCapture busyCameraState = busyCameraState ∧
    (handleOcrResult "a" "en" busyCameraState).isProcessing = false ∧
    (handleCaptureFailure "x" busyCameraState).isProcessing = false :=
  ⟨capture_reentrancy_guard.1 busyCameraState rfl,
   capture_reentrancy_guard.2.1 busyCameraState "a" "en",
   capture_reentrancy_guard.2.2 busyCameraState "x"⟩

end StorybookReader
